import Mathlib

/-!
Shallow embedding of the FAA ACS monitor repository
(`scripts/monitor.py` and `scripts/pdf_processor.py`), together with
theorems settling the specification claims about it.

Conventions of the embedding:
* Python `Optional[T]` fields become `Option` fields; `None` is `none`.
* Byte strings become `List Nat`.
* The SHA-256 hex digest used by `download_and_verify` is modelled as an
  explicit pure function parameter `hashFn : List Nat → String` (the code
  treats the digest as an opaque string and only compares it for equality).
* Network effects are modelled as explicit inputs: the result of the HEAD
  probe is an `Option LiveHeaders` (`none` = non-200 status, transport
  error, or any exception in the `try` block), the result of the GET is an
  `Option (List Nat)` (`none` = any exception, including `raise_for_status`).
* `datetime.now().isoformat()` is modelled as a single run timestamp.
* File-system writes are returned explicitly instead of performed.
-/

namespace FAA

/-- `ACSDocument` dataclass of `monitor.py` (lines 31-41). -/
structure ACSDocument where
  name : String
  url : String
  last_modified : Option String := none
  etag : Option String := none
  content_hash : Option String := none
  file_size : Option Nat := none
  local_path : Option String := none
  last_checked : Option String := none
deriving DecidableEq, Repr

/-- The header triple read off the HEAD response in
`check_document_changes` (lines 144-146).  `contentLength` is the already
parsed `int(content_length) if content_length else None`. -/
structure LiveHeaders where
  lastModified : Option String
  etag : Option String
  contentLength : Option Nat
deriving DecidableEq, Repr

/-- The spec's Decision outcome of the header comparison. -/
inductive Decision where
  | NoChange
  | Escalate
deriving DecidableEq, Repr

/-- Header-comparison logic of `check_document_changes` (lines 158-171):
three sequential `if` statements each OR-ing a `changed` flag. -/
def evaluate (document : ACSDocument) (h : LiveHeaders) : Decision :=
  let changed := false
  let changed := if document.last_modified ≠ h.lastModified then true else changed
  let changed := if document.etag ≠ h.etag then true else changed
  let changed := if document.file_size ≠ h.contentLength then true else changed
  if changed then Decision.Escalate else Decision.NoChange

/-- Python whitespace (the characters stripped by `str.strip`/`str.rstrip`
and matched by the regex class `\s`, restricted to ASCII). -/
def pySpaceChar (c : Char) : Bool :=
  c == ' ' || c == '\t' || c == '\n' || c == '\r' || c == '\x0b' || c == '\x0c'

/-- `str.rstrip()` on a character list. -/
def pyRstrip (cs : List Char) : List Char :=
  (cs.reverse.dropWhile pySpaceChar).reverse

/-- `"".join(c for c in document.name if c.isalnum() or c in (' ', '-', '_')).rstrip()`
from `download_and_verify` (line 195). -/
def safe_name (name : String) : String :=
  String.mk (pyRstrip (name.data.filter
    (fun c => c.isAlphanum || c == ' ' || c == '-' || c == '_')))

/-- The directory prefix `self.docs_dir` of downloaded documents. -/
def docsDirPath : String := "data/acs-documents/"

/-- `download_and_verify` (lines 185-217).  Returns the changed flag, the
(possibly updated) record, and the file write performed (`none` when no
write happened).  A `none` fetch models any exception in the `try` block,
whose handler returns `(False, document)`. -/
def download_and_verify (hashFn : List Nat → String) (fetched : Option (List Nat))
    (document : ACSDocument) : Bool × ACSDocument × Option (String × List Nat) :=
  match fetched with
  | none => (false, document, none)
  | some content =>
    let content_hash := hashFn content
    let filename := safe_name document.name ++ ".pdf"
    let local_path := docsDirPath ++ filename
    if document.content_hash = some content_hash then
      (false, document, none)
    else
      (true,
       { document with content_hash := some content_hash, local_path := some local_path },
       some (local_path, content))

/-- `check_document_changes` (lines 131-183).  A `none` probe models a
non-200 HEAD status or any exception (both return `(False, document)`).
The record `updated_doc` is built exactly as in lines 149-156: the
constructor call passes name, url, the three live header fields and
`last_checked` only, so `content_hash` and `local_path` take their
dataclass defaults (`None`). -/
def check_document_changes (hashFn : List Nat → String) (probe : Option LiveHeaders)
    (fetched : Option (List Nat)) (now : String) (document : ACSDocument) :
    Bool × ACSDocument :=
  match probe with
  | none => (false, document)
  | some h =>
    let updated_doc : ACSDocument :=
      { name := document.name
        url := document.url
        last_modified := h.lastModified
        etag := h.etag
        file_size := h.contentLength
        last_checked := some now }
    match evaluate document h with
    | Decision.Escalate =>
      let r := download_and_verify hashFn fetched updated_doc
      (r.1, r.2.1)
    | Decision.NoChange => (false, updated_doc)

/-- One entry of the `changes` list built in `monitor` (lines 241-255). -/
structure ChangeRecord where
  type : String
  document : ACSDocument
  timestamp : String
deriving DecidableEq, Repr

/-- The `summary` object written to `last_run_summary.json` (lines 272-277). -/
structure RunSummary where
  timestamp : String
  total_documents : Nat
  changes_detected : Nat
  changes : List ChangeRecord
deriving DecidableEq, Repr

/-- The metadata directory contents: `known_documents.json` (`none` =
missing or unparseable), `changes.json`, `last_run_summary.json`. -/
structure MetadataStore where
  known_documents : Option (List ACSDocument)
  changes_file : Option (List ChangeRecord)
  last_run_summary : Option RunSummary
deriving DecidableEq, Repr

/-- The run's external world: the discovery result and the per-URL
network responses, plus the run timestamp. -/
structure RunEnv where
  discovered : List ACSDocument
  probe : String → Option LiveHeaders
  fetch : String → Option (List Nat)
  now : String

/-- `load_known_documents` (lines 107-119): a missing or corrupt file
loads as the empty list. -/
def load_known_documents (st : MetadataStore) : List ACSDocument :=
  match st.known_documents with
  | some docs => docs
  | none => []

/-- Lookup in `known_urls = {doc.url: doc for doc in known_docs}`
(line 225): a Python dict comprehension keeps the last record for a
duplicated key. -/
def dictLookup (docs : List ACSDocument) (u : String) : Option ACSDocument :=
  (docs.filter (fun d => d.url == u)).getLast?

/-- The body of the per-document loop of `monitor` (lines 233-256):
returns the change entries appended (zero or one) and the record
appended to `all_docs`. -/
def monitorStep (hashFn : List Nat → String) (env : RunEnv)
    (known : List ACSDocument) (doc : ACSDocument) :
    List ChangeRecord × ACSDocument :=
  match dictLookup known doc.url with
  | some knownDoc =>
    let r := check_document_changes hashFn (env.probe doc.url) (env.fetch doc.url)
      env.now knownDoc
    (if r.1 then [⟨"updated", r.2, env.now⟩] else [], r.2)
  | none =>
    let r := download_and_verify hashFn (env.fetch doc.url) doc
    ([⟨"new", r.2.1, env.now⟩], r.2.1)

/-- The whole per-document loop of `monitor`, accumulating `changes` and
`all_docs` in iteration order. -/
def monitorLoop (hashFn : List Nat → String) (env : RunEnv)
    (known : List ACSDocument) : List ACSDocument → List ChangeRecord × List ACSDocument
  | [] => ([], [])
  | doc :: rest =>
    let s := monitorStep hashFn env known doc
    let r := monitorLoop hashFn env known rest
    (s.1 ++ r.1, s.2 :: r.2)

/-- Outcome of a monitor run: the run's change list, the `all_docs` list,
and the final metadata directory contents. -/
structure MonitorResult where
  changes : List ChangeRecord
  all_docs : List ACSDocument
  store : MetadataStore
deriving DecidableEq, Repr

/-- `monitor` (lines 219-283): load the registry, walk the discovered
documents, save `all_docs` as the new registry, write `changes.json`
only when `changes` is non-empty (lines 262-265), and always write the
run summary. -/
def monitor (hashFn : List Nat → String) (env : RunEnv) (st : MetadataStore) :
    MonitorResult :=
  let known_docs := load_known_documents st
  let r := monitorLoop hashFn env known_docs env.discovered
  let changes := r.1
  let all_docs := r.2
  { changes := changes
    all_docs := all_docs
    store :=
      { known_documents := some all_docs
        changes_file := if changes.isEmpty then st.changes_file else some changes
        last_run_summary := some ⟨env.now, all_docs.length, changes.length, changes⟩ } }

/-- `download_and_verify` never changes the record's URL. -/
theorem download_and_verify_url (hashFn : List Nat → String)
    (fetched : Option (List Nat)) (d : ACSDocument) :
    (download_and_verify hashFn fetched d).2.1.url = d.url := by
  unfold download_and_verify
  cases fetched with
  | none => rfl
  | some content => dsimp only; split <;> rfl

/-- `check_document_changes` never changes the record's URL. -/
theorem check_document_changes_url (hashFn : List Nat → String)
    (probe : Option LiveHeaders) (fetched : Option (List Nat)) (now : String)
    (d : ACSDocument) :
    (check_document_changes hashFn probe fetched now d).2.url = d.url := by
  unfold check_document_changes
  cases probe with
  | none => rfl
  | some h =>
    dsimp only
    cases evaluate d h with
    | NoChange => rfl
    | Escalate => exact download_and_verify_url hashFn fetched _

/-- A successful `dictLookup` returns a record carrying the key URL. -/
theorem dictLookup_url (docs : List ACSDocument) (u : String) (kd : ACSDocument)
    (h : dictLookup docs u = some kd) : kd.url = u := by
  unfold dictLookup at h
  have hmem : kd ∈ docs.filter (fun d => d.url == u) := by
    have h1 : kd ∈ (docs.filter (fun d => d.url == u)).getLast? := by
      rw [h]; exact rfl
    obtain ⟨hne, heq⟩ := List.mem_getLast?_eq_getLast h1
    rw [heq]
    exact List.getLast_mem hne
  have := List.of_mem_filter hmem
  exact of_decide_eq_true this

/-- Each loop iteration appends a record with the discovered URL. -/
theorem monitorStep_url (hashFn : List Nat → String) (env : RunEnv)
    (known : List ACSDocument) (doc : ACSDocument) :
    (monitorStep hashFn env known doc).2.url = doc.url := by
  unfold monitorStep
  cases hk : dictLookup known doc.url with
  | none => exact download_and_verify_url hashFn _ doc
  | some kd =>
    dsimp only
    rw [check_document_changes_url]
    exact dictLookup_url known doc.url kd hk

/-- Every document fed to the loop contributes a record with its URL to
`all_docs`. -/
theorem monitorLoop_url_mem (hashFn : List Nat → String) (env : RunEnv)
    (known : List ACSDocument) :
    ∀ l (d : ACSDocument), d ∈ l →
      d.url ∈ (monitorLoop hashFn env known l).2.map ACSDocument.url := by
  intro l
  induction l with
  | nil => intro d hd; cases hd
  | cons doc rest ih =>
    intro d hd
    show d.url ∈ ((monitorStep hashFn env known doc).2 ::
      (monitorLoop hashFn env known rest).2).map ACSDocument.url
    rw [List.map_cons]
    rcases List.mem_cons.mp hd with h | h
    · subst h
      rw [monitorStep_url]
      exact List.mem_cons_self _ _
    · exact List.mem_cons_of_mem _ (ih d h)

/-- A loop step on a document with no prior record whose body fetch fails
records a `new` change event with the record unmodified. -/
theorem monitorStep_new_fetch_fail (hashFn : List Nat → String) (env : RunEnv)
    (known : List ACSDocument) (doc : ACSDocument)
    (hlk : dictLookup known doc.url = none) (hft : env.fetch doc.url = none) :
    monitorStep hashFn env known doc = ([⟨"new", doc, env.now⟩], doc) := by
  unfold monitorStep
  rw [hlk]
  dsimp only
  rw [hft]
  rfl

/-- Membership version of `monitorStep_new_fetch_fail` for the whole loop. -/
theorem monitorLoop_new_fetch_fail (hashFn : List Nat → String) (env : RunEnv)
    (known : List ACSDocument) :
    ∀ l (d : ACSDocument), d ∈ l → dictLookup known d.url = none →
      env.fetch d.url = none →
      (⟨"new", d, env.now⟩ : ChangeRecord) ∈ (monitorLoop hashFn env known l).1 ∧
        d ∈ (monitorLoop hashFn env known l).2 := by
  intro l
  induction l with
  | nil => intro d hd _ _; cases hd
  | cons doc rest ih =>
    intro d hd hlk hft
    show (⟨"new", d, env.now⟩ : ChangeRecord) ∈
        (monitorStep hashFn env known doc).1 ++ (monitorLoop hashFn env known rest).1 ∧
      d ∈ (monitorStep hashFn env known doc).2 :: (monitorLoop hashFn env known rest).2
    rcases List.mem_cons.mp hd with h | h
    · subst h
      rw [monitorStep_new_fetch_fail hashFn env known d hlk hft]
      exact ⟨List.mem_append_left _ (List.mem_singleton_self _),
        List.mem_cons_self _ _⟩
    · obtain ⟨h1, h2⟩ := ih d h hlk hft
      exact ⟨List.mem_append_right _ h1, List.mem_cons_of_mem _ h2⟩

/-!
Embedding of `scripts/pdf_processor.py`.

The regex patterns of `parse_acs_sections` and `extract_acs_standards`
are linear: a sequence of literals, single-character classes, and greedy
quantifiers over single-character classes, plus flat capturing groups.
They are embedded as token lists interpreted by a backtracking matcher
with Python semantics: greedy quantifiers try the longest run first and
backtrack one character at a time, `re.finditer` scans left to right and
resumes after each match, `re.IGNORECASE` makes literals and letter
classes case-insensitive (ASCII), and `re.MULTILINE` is irrelevant since
no pattern contains an anchor.
-/

/-- One element of a compiled pattern: a single mandatory character class,
a greedy `*`, `+` or `?` over a character class, or a capturing-group
boundary. -/
inductive Tok where
  | one : (Char → Bool) → Tok
  | many0 : (Char → Bool) → Tok
  | many1 : (Char → Bool) → Tok
  | opt01 : (Char → Bool) → Tok
  | gopen : Tok
  | gclose : Tok

/-- Greedy backtracking helper: return the first `some` among
`f j, f (j-1), ..., f lo`. -/
def tryFrom (f : Nat → Option α) (lo : Nat) : Nat → Option α
  | 0 => f 0
  | j + 1 =>
    match f (j + 1) with
    | some r => some r
    | none => if lo = j + 1 then none else tryFrom f lo j

/-- Match a token sequence against `s` starting at `pos`.  `opens` is the
stack of start offsets of currently open groups, `caps` the spans of
closed groups in closing order (which equals group-number order for the
flat patterns embedded here).  Returns the end offset and the captures. -/
def matchToks (s : List Char) : List Tok → Nat → List Nat → List (Nat × Nat) →
    Option (Nat × List (Nat × Nat))
  | [], pos, _, caps => some (pos, caps)
  | Tok.gopen :: rest, pos, opens, caps => matchToks s rest pos (pos :: opens) caps
  | Tok.gclose :: rest, pos, opens, caps =>
    match opens with
    | st :: opens2 => matchToks s rest pos opens2 (caps ++ [(st, pos)])
    | [] => none
  | Tok.one cls :: rest, pos, opens, caps =>
    if pos < s.length && cls (s.getD pos ' ') then
      matchToks s rest (pos + 1) opens caps
    else none
  | Tok.many0 cls :: rest, pos, opens, caps =>
    tryFrom (fun j => matchToks s rest (pos + j) opens caps) 0
      (((s.drop pos).takeWhile cls).length)
  | Tok.many1 cls :: rest, pos, opens, caps =>
    let m := ((s.drop pos).takeWhile cls).length
    if m = 0 then none
    else tryFrom (fun j => matchToks s rest (pos + j) opens caps) 1 m
  | Tok.opt01 cls :: rest, pos, opens, caps =>
    tryFrom (fun j => matchToks s rest (pos + j) opens caps) 0
      (min (((s.drop pos).takeWhile cls).length) 1)

/-- Try a full pattern match at a fixed start offset. -/
def matchAt (toks : List Tok) (s : List Char) (pos : Nat) :
    Option (Nat × List (Nat × Nat)) :=
  matchToks s toks pos [] []

/-- One `re.Match`: start offset, end offset, captured group spans. -/
structure RMatch where
  start : Nat
  stop : Nat
  caps : List (Nat × Nat)
deriving DecidableEq, Repr

/-- `re.finditer` scan: at each offset try a match; on success emit it and
resume at its end (or one past the start for an empty match), otherwise
advance one character.  The fuel starts at `s.length + 1`, enough for
every offset from 0 to `s.length` since each step advances by at least
one. -/
def findIterAux (toks : List Tok) (s : List Char) : Nat → Nat → List RMatch
  | 0, _ => []
  | fuel + 1, pos =>
    if pos > s.length then []
    else
      match matchAt toks s pos with
      | some (e, caps) =>
        ⟨pos, e, caps⟩ :: findIterAux toks s fuel (if pos < e then e else pos + 1)
      | none => findIterAux toks s fuel (pos + 1)

/-- All matches of a pattern in `s`, in scan order. -/
def findIter (toks : List Tok) (s : List Char) : List RMatch :=
  findIterAux toks s (s.length + 1) 0

/-- The text of a span of `s` (`match.group(k)` for the stored spans). -/
def groupStr (s : List Char) (span : Nat × Nat) : String :=
  String.mk ((s.drop span.1).take (span.2 - span.1))

/-- `str.strip()`. -/
def pyStrip (s : String) : String :=
  String.mk (pyRstrip (s.data.dropWhile pySpaceChar))

/-- Case-insensitive literal character (ASCII case folding). -/
def ciChar (c : Char) : Char → Bool := fun x => x.toLower == c.toLower

/-- `[IVXLC]` under `re.IGNORECASE`. -/
def isRomanChar (c : Char) : Bool :=
  let u := c.toUpper
  u == 'I' || u == 'V' || u == 'X' || u == 'L' || u == 'C'

/-- `[A-Z]` under `re.IGNORECASE`. -/
def isAsciiAlpha (c : Char) : Bool := c.isAlpha

/-- `[^\n]`. -/
def notNl (c : Char) : Bool := c != '\n'

/-- `[:\-]`. -/
def colonOrDash (c : Char) : Bool := c == ':' || c == '-'

/-- A case-insensitive literal word as a token sequence. -/
def litToks (w : String) : List Tok := w.data.map (fun c => Tok.one (ciChar c))

/-- `r'(AREA OF OPERATION\s+[IVXLC]+)\s*[:\-]\s*([^\n]+)'` (line 166). -/
def patAreaSection : List Tok :=
  [Tok.gopen] ++ litToks "AREA OF OPERATION" ++
  [Tok.many1 pySpaceChar, Tok.many1 isRomanChar, Tok.gclose,
   Tok.many0 pySpaceChar, Tok.one colonOrDash, Tok.many0 pySpaceChar,
   Tok.gopen, Tok.many1 notNl, Tok.gclose]

/-- `r'(TASK\s+[A-Z]+)\.\s*([^\n]+)'` (line 167). -/
def patTaskSection : List Tok :=
  [Tok.gopen] ++ litToks "TASK" ++
  [Tok.many1 pySpaceChar, Tok.many1 isAsciiAlpha, Tok.gclose,
   Tok.one (fun c => c == '.'), Tok.many0 pySpaceChar,
   Tok.gopen, Tok.many1 notNl, Tok.gclose]

/-- `r'(REFERENCES?:?\s*)([^\n]+)'` (line 168). -/
def patReferences : List Tok :=
  [Tok.gopen] ++ litToks "REFERENCE" ++
  [Tok.opt01 (ciChar 'S'), Tok.opt01 (fun c => c == ':'), Tok.many0 pySpaceChar,
   Tok.gclose, Tok.gopen, Tok.many1 notNl, Tok.gclose]

/-- `r'(WORD:?\s*)([^\n]+)'` for the OBJECTIVE, KNOWLEDGE,
RISK MANAGEMENT and SKILLS rules (lines 169-172). -/
def patLabeled (w : String) : List Tok :=
  [Tok.gopen] ++ litToks w ++
  [Tok.opt01 (fun c => c == ':'), Tok.many0 pySpaceChar, Tok.gclose,
   Tok.gopen, Tok.many1 notNl, Tok.gclose]

/-- The seven `section_patterns` of `parse_acs_sections` (lines 165-173),
in source order. -/
def section_patterns : List (List Tok) :=
  [patAreaSection, patTaskSection, patReferences, patLabeled "OBJECTIVE",
   patLabeled "KNOWLEDGE", patLabeled "RISK MANAGEMENT", patLabeled "SKILLS"]

/-- One entry of the `sections` list (lines 184-189). -/
structure Section where
  type : String
  content : String
  position : Nat
  length : Nat
deriving DecidableEq, Repr

/-- Build a section dict from a match (lines 181-189): stripped group 1,
stripped group 2, `match.start()`, `len(match.group(0))`. -/
def matchToSection (s : List Char) (m : RMatch) : Section :=
  { type := pyStrip (groupStr s (m.caps.getD 0 (0, 0)))
    content := pyStrip (groupStr s (m.caps.getD 1 (0, 0)))
    position := m.start
    length := m.stop - m.start }

/-- The sort key of line 192 as a relation. -/
def posLe (a b : Section) : Prop := a.position ≤ b.position

instance : DecidableRel posLe := fun a b =>
  inferInstanceAs (Decidable (a.position ≤ b.position))

instance : IsTotal Section posLe := ⟨fun a b => Nat.le_total a.position b.position⟩

instance : IsTrans Section posLe := ⟨fun _ _ _ h1 h2 => Nat.le_trans h1 h2⟩

/-- `parse_acs_sections` (lines 160-193): each rule scans the whole text
and appends one section per match; the merged list is sorted by position.
Python `list.sort` is stable, and `insertionSort` with `posLe` computes
exactly the stable sort by position. -/
def parse_acs_sections (text : String) : List Section :=
  let cs := text.data
  let sections := section_patterns.foldl
    (fun acc p => acc ++ (findIter p cs).map (matchToSection cs)) []
  List.insertionSort posLe sections

/-- An `areas_of_operation` entry (lines 210-213): unstripped group 1,
stripped group 2. -/
structure AreaOfOperation where
  number : String
  title : String
deriving DecidableEq, Repr

/-- A `tasks` entry (lines 218-221). -/
structure TaskEntry where
  code : String
  title : String
deriving DecidableEq, Repr

/-- The `standards` dict of `extract_acs_standards` (lines 197-205): the
last four lists exist in the schema but no rule populates them. -/
structure StandardsTable where
  areas_of_operation : List AreaOfOperation
  tasks : List TaskEntry
  references : List String
  objectives : List String
  knowledge_elements : List String
  risk_management : List String
  skill_elements : List String
deriving DecidableEq, Repr

/-- `r'AREA OF OPERATION\s+([IVXLC]+)\s*[:\-]\s*([^\n]+)'` (line 208). -/
def patAreaStd : List Tok :=
  litToks "AREA OF OPERATION" ++
  [Tok.many1 pySpaceChar, Tok.gopen, Tok.many1 isRomanChar, Tok.gclose,
   Tok.many0 pySpaceChar, Tok.one colonOrDash, Tok.many0 pySpaceChar,
   Tok.gopen, Tok.many1 notNl, Tok.gclose]

/-- `r'TASK\s+([A-Z]+)\.\s*([^\n]+)'` (line 216). -/
def patTaskStd : List Tok :=
  litToks "TASK" ++
  [Tok.many1 pySpaceChar, Tok.gopen, Tok.many1 isAsciiAlpha, Tok.gclose,
   Tok.one (fun c => c == '.'), Tok.many0 pySpaceChar,
   Tok.gopen, Tok.many1 notNl, Tok.gclose]

/-- `r'14 CFR part (\d+)'` (line 225). -/
def patCFR : List Tok :=
  litToks "14 CFR part " ++ [Tok.gopen, Tok.many1 Char.isDigit, Tok.gclose]

/-- `r'AC (\d+-\d+[A-Z]*)'` (line 226). -/
def patAC : List Tok :=
  litToks "AC " ++
  [Tok.gopen, Tok.many1 Char.isDigit, Tok.one (fun c => c == '-'),
   Tok.many1 Char.isDigit, Tok.many0 isAsciiAlpha, Tok.gclose]

/-- `r'AIM (\d+-\d+-\d+)'` (line 227). -/
def patAIM : List Tok :=
  litToks "AIM " ++
  [Tok.gopen, Tok.many1 Char.isDigit, Tok.one (fun c => c == '-'),
   Tok.many1 Char.isDigit, Tok.one (fun c => c == '-'),
   Tok.many1 Char.isDigit, Tok.gclose]

/-- `r'POH/AFM'` (line 228). -/
def patPOH : List Tok := litToks "POH/AFM"

/-- The `ref_patterns` list (lines 224-229), in source order. -/
def ref_patterns : List (List Tok) := [patCFR, patAC, patAIM, patPOH]

/-- `extract_acs_standards` (lines 195-235): areas of operation, tasks,
and references (the latter appending `match.group(0)` per match, with
duplicates kept); the remaining four lists stay empty. -/
def extract_acs_standards (text : String) : StandardsTable :=
  let cs := text.data
  { areas_of_operation := (findIter patAreaStd cs).map (fun m =>
      { number := groupStr cs (m.caps.getD 0 (0, 0))
        title := pyStrip (groupStr cs (m.caps.getD 1 (0, 0))) })
    tasks := (findIter patTaskStd cs).map (fun m =>
      { code := groupStr cs (m.caps.getD 0 (0, 0))
        title := pyStrip (groupStr cs (m.caps.getD 1 (0, 0))) })
    references := ref_patterns.foldl
      (fun acc p => acc ++ (findIter p cs).map (fun m => groupStr cs (m.start, m.stop))) []
    objectives := []
    knowledge_elements := []
    risk_management := []
    skill_elements := [] }

/-- `len(text_content.split())` (line 264): the number of maximal
nonwhitespace runs. -/
def countWords : List Char → Bool → Nat
  | [], _ => 0
  | c :: rest, inWord =>
    if pySpaceChar c then countWords rest false
    else (if inWord then 0 else 1) + countWords rest true

/-- `str.split()` length. -/
def pyWordCount (s : String) : Nat := countWords s.data false

/-- `Path(p).stem`: the final path component without its last suffix; a
suffix needs a dot that is neither the first nor past the last
character of the component. -/
def pathStem (p : String) : String :=
  let base := (p.splitOn "/").getLastD ""
  let cs := base.data
  match ((List.range cs.length).filter (fun i => cs.getD i ' ' == '.')).getLast? with
  | some i => if 0 < i ∧ i + 1 < cs.length then String.mk (cs.take i) else base
  | none => base

/-- The nested `structured_content` dict (lines 261-266). -/
structure StructuredContent where
  standards : StandardsTable
  metadata : List (String × String)
  word_count : Nat
  character_count : Nat
deriving DecidableEq, Repr

/-- `ProcessedDocument` dataclass (lines 38-48).  The black-box backend
metadata dict is modelled as a key-value list. -/
structure ProcessedDocument where
  name : String
  source_path : String
  text_content : String
  structured_content : Option StructuredContent := none
  sections : Option (List Section) := none
  metadata : Option (List (String × String)) := none
  processing_method : Option String := none
  processed_at : Option String := none
deriving DecidableEq, Repr

/-- `process_document` (lines 237-277).  The black-box `extract_text`
result is an explicit input (its backends catch their own exceptions and
return empty text on failure).  Empty text short-circuits to a record
with empty content fields (lines 244-252). -/
def process_document (method now : String) (pdf_path : String)
    (extracted : String × List (String × String)) : ProcessedDocument :=
  let text_content := extracted.1
  let metadata := extracted.2
  if text_content = "" then
    { name := pathStem pdf_path
      source_path := pdf_path
      text_content := ""
      processing_method := some method
      processed_at := some now }
  else
    { name := pathStem pdf_path
      source_path := pdf_path
      text_content := text_content
      structured_content := some
        { standards := extract_acs_standards text_content
          metadata := metadata
          word_count := pyWordCount text_content
          character_count := text_content.length }
      sections := some (parse_acs_sections text_content)
      metadata := some metadata
      processing_method := some method
      processed_at := some now }

/-- `process_all_documents` (lines 323-362): one processed record per
input file, in order.  Each input pairs the file path with its black-box
extraction result; the per-document `try` block never skips a document
in this embedding because the embedded `process_document` is total,
matching the Python control flow in which backend failures are already
converted to empty text before `process_document` decides. -/
def process_all_documents (method now : String)
    (inputs : List (String × String × List (String × String))) :
    List ProcessedDocument :=
  inputs.map (fun i => process_document method now i.1 i.2)

/-- C6: `evaluate` is deterministic (a pure function of its two inputs:
identical arguments give identical Decisions by reflexivity) and returns
`NoChange` exactly when the live last-modified token, entity-tag, and
byte size all equal the stored values; a difference in any one signal,
including an absent-vs-present transition of an optional field, yields
`Escalate`. -/
theorem C6_evaluate_noChange_iff (document : ACSDocument) (h : LiveHeaders) :
    (evaluate document h = Decision.NoChange ↔
      (document.last_modified = h.lastModified ∧ document.etag = h.etag ∧
        document.file_size = h.contentLength)) ∧
    (evaluate document h = Decision.Escalate ↔
      ¬ (document.last_modified = h.lastModified ∧ document.etag = h.etag ∧
        document.file_size = h.contentLength)) := by
  unfold evaluate
  by_cases h1 : document.last_modified = h.lastModified <;>
    by_cases h2 : document.etag = h.etag <;>
      by_cases h3 : document.file_size = h.contentLength <;>
        simp [h1, h2, h3]

/-- C5: whenever the computed hash of the fetched payload equals the
record's stored hash, `download_and_verify` reports `changed = false`,
performs no file write, and returns the record unmodified — for every
record and every byte payload. -/
theorem C5_download_and_verify_unchanged (hashFn : List Nat → String)
    (document : ACSDocument) (content : List Nat)
    (hh : document.content_hash = some (hashFn content)) :
    download_and_verify hashFn (some content) document = (false, document, none) := by
  unfold download_and_verify
  dsimp only
  rw [if_pos hh]

/-- C5 witness: the empty payload under a concrete hash function, for a
record already storing that payload's hash. -/
theorem C5_download_and_verify_unchanged_witness :
    download_and_verify (fun _ => "h0") (some [])
      { name := "Doc", url := "u", content_hash := some "h0" } =
      (false, { name := "Doc", url := "u", content_hash := some "h0" }, none) :=
  C5_download_and_verify_unchanged (fun _ => "h0")
    { name := "Doc", url := "u", content_hash := some "h0" } [] rfl

/-- C1 (code behavior at the claim's scenario): the known record stores
the hash of the body bytes, the probe differs only in the entity-tag, the
fetched bytes hash to the stored hash — yet `check_document_changes`
returns `changed = true` and a record whose local path was rewritten.
The record `updated_doc` handed to `download_and_verify` is built without
the stored `content_hash`, so the hash-equality guard compares `none`
against the computed digest and never fires. -/
theorem C1_escalation_ignores_stored_hash (hashFn : List Nat → String)
    (content : List Nat) :
    check_document_changes hashFn
      (some { lastModified := some "T1", etag := some "E2", contentLength := some 100 })
      (some content) "t1"
      { name := "Doc", url := "u", last_modified := some "T1", etag := some "E1",
        content_hash := some (hashFn content), file_size := some 100,
        local_path := some "old/Doc.pdf", last_checked := some "t0" } =
      (true,
       { name := "Doc", url := "u", last_modified := some "T1", etag := some "E2",
         content_hash := some (hashFn content), file_size := some 100,
         local_path := some "data/acs-documents/Doc.pdf", last_checked := some "t1" }) := by
  rfl

/-- C2 (code behavior at the claim's scenario): all three header signals
equal the stored values, the check returns `changed = false`, but the
returned record's stored content hash and local path are reset to `none`,
not preserved: `updated_doc` is built from the probe headers only. -/
theorem C2_noChange_wipes_hash_and_path (hashFn : List Nat → String)
    (fetched : Option (List Nat)) :
    check_document_changes hashFn
      (some { lastModified := some "T1", etag := some "E1", contentLength := some 100 })
      fetched "t1"
      { name := "Doc", url := "u", last_modified := some "T1", etag := some "E1",
        content_hash := some "H", file_size := some 100,
        local_path := some "data/acs-documents/Doc.pdf", last_checked := some "t0" } =
      (false,
       { name := "Doc", url := "u", last_modified := some "T1", etag := some "E1",
         content_hash := none, file_size := some 100, local_path := none,
         last_checked := some "t1" }) := by
  rfl

/-- Concrete inputs for the C3 counterexample: a registry with one known
URL and a run whose discovery step returns nothing. -/
def stC3 : MetadataStore :=
  { known_documents := some [{ name := "A", url := "uA" }]
    changes_file := none
    last_run_summary := none }

/-- Empty-discovery environment for the C3 counterexample. -/
def envC3 : RunEnv :=
  { discovered := [], probe := fun _ => none, fetch := fun _ => none, now := "t" }

/-- C3 counterexample: the URL `uA` is present in the registry loaded at
the start of the run but absent from the registry saved at the end — the
run rebuilds the registry from the discovered documents only, deleting
records for URLs that were not rediscovered. -/
theorem C3_counterexample_dropped_url :
    "uA" ∈ (load_known_documents stC3).map ACSDocument.url ∧
      (monitor (fun _ => "h") envC3 stC3).store.known_documents = some [] ∧
      "uA" ∉ (monitor (fun _ => "h") envC3 stC3).all_docs.map ACSDocument.url := by
  refine ⟨?_, rfl, ?_⟩ <;> decide

/-- C3 amended: every URL discovered in the current run — in particular
every loaded-registry URL that is rediscovered — is present in the saved
registry, and the saved registry is exactly the run's `all_docs` list. -/
theorem C3_discovered_urls_saved (hashFn : List Nat → String) (env : RunEnv)
    (st : MetadataStore) (d : ACSDocument) (hd : d ∈ env.discovered) :
    d.url ∈ (monitor hashFn env st).all_docs.map ACSDocument.url ∧
      (monitor hashFn env st).store.known_documents =
        some (monitor hashFn env st).all_docs :=
  ⟨monitorLoop_url_mem hashFn env (load_known_documents st) env.discovered d hd, rfl⟩

/-- Environment with one discovered document, used by the C3 witness. -/
def envC3w : RunEnv :=
  { discovered := [{ name := "A", url := "uA" }], probe := fun _ => none,
    fetch := fun _ => none, now := "t" }

/-- Empty metadata store shared by concrete run instantiations. -/
def stEmpty : MetadataStore :=
  { known_documents := none, changes_file := none, last_run_summary := none }

/-- C3 witness: instantiation of the amended claim with one discovered
document. -/
theorem C3_discovered_urls_saved_witness :
    "uA" ∈ (monitor (fun _ => "h") envC3w stEmpty).all_docs.map ACSDocument.url :=
  (C3_discovered_urls_saved (fun _ => "h") envC3w stEmpty
    { name := "A", url := "uA" } (by decide)).1

/-- C4 amended: the change log file is overwritten with exactly the run's
change events when the run detected at least one change; a run that found
no changes leaves the previous change log file untouched. -/
theorem C4_changes_file_written_iff_changes (hashFn : List Nat → String)
    (env : RunEnv) (st : MetadataStore) :
    (monitor hashFn env st).store.changes_file =
      (if (monitor hashFn env st).changes.isEmpty then st.changes_file
       else some (monitor hashFn env st).changes) := rfl

/-- State holding a stale change log from a previous run, for the C4
counterexample. -/
def stC4 : MetadataStore :=
  { known_documents := some []
    changes_file := some [⟨"updated", { name := "A", url := "uA" }, "t0"⟩]
    last_run_summary := none }

/-- C4 counterexample: a run that detects no changes (its change list is
empty) leaves the previous run's `changes.json` entries in place instead
of an absent or empty file. -/
theorem C4_counterexample_stale_log :
    (monitor (fun _ => "h") envC3 stC4).changes = [] ∧
      (monitor (fun _ => "h") envC3 stC4).store.changes_file =
        some [⟨"updated", { name := "A", url := "uA" }, "t0"⟩] :=
  ⟨rfl, rfl⟩

/-- C10: a newly discovered document (no prior record for its URL) whose
body fetch fails still yields a `new` change event carrying the record
exactly as discovered (hash and path untouched), the record still enters
the saved registry, and the change log file is written; the failure does
not abort the run. -/
theorem C10_new_doc_fetch_failure (hashFn : List Nat → String) (env : RunEnv)
    (st : MetadataStore) (d : ACSDocument) (hd : d ∈ env.discovered)
    (hnew : dictLookup (load_known_documents st) d.url = none)
    (hft : env.fetch d.url = none) :
    (⟨"new", d, env.now⟩ : ChangeRecord) ∈ (monitor hashFn env st).changes ∧
      d ∈ (monitor hashFn env st).all_docs ∧
      (monitor hashFn env st).store.known_documents =
        some (monitor hashFn env st).all_docs ∧
      (monitor hashFn env st).store.changes_file =
        some (monitor hashFn env st).changes := by
  obtain ⟨h1, h2⟩ := monitorLoop_new_fetch_fail hashFn env
    (load_known_documents st) env.discovered d hd hnew hft
  have h1' : (⟨"new", d, env.now⟩ : ChangeRecord) ∈ (monitor hashFn env st).changes := h1
  refine ⟨h1', h2, rfl, ?_⟩
  have hempty : (monitor hashFn env st).changes.isEmpty = false := by
    cases hc : (monitor hashFn env st).changes with
    | nil => rw [hc] at h1'; cases h1'
    | cons a t => rfl
  have hif : (monitor hashFn env st).store.changes_file =
      (if (monitor hashFn env st).changes.isEmpty then st.changes_file
       else some (monitor hashFn env st).changes) := rfl
  rw [hif, hempty]
  simp

/-- Environment with one new document whose fetch fails, for the C10
witness. -/
def envC10 : RunEnv :=
  { discovered := [{ name := "D", url := "u0" }], probe := fun _ => none,
    fetch := fun _ => none, now := "t" }

/-- Folding append over a list of blocks yields the sum of the block
lengths. -/
theorem foldl_append_length {α β : Type} (f : α → List β) (l : List α)
    (acc : List β) :
    (l.foldl (fun a p => a ++ f p) acc).length =
      acc.length + (l.map (fun p => (f p).length)).sum := by
  induction l generalizing acc with
  | nil => simp
  | cons p rest ih =>
    simp only [List.foldl_cons, List.map_cons, List.sum_cons, ih,
      List.length_append]
    omega

/-- C7: for every input text, the sections list is sorted by ascending
byte offset and its length is the sum over the seven pattern rules of
that rule's match count in the text — merging and sorting drops and
deduplicates nothing. -/
theorem C7_parse_sorted_and_complete (text : String) :
    (parse_acs_sections text).Sorted posLe ∧
      (parse_acs_sections text).length =
        (section_patterns.map (fun p => (findIter p text.data).length)).sum := by
  constructor
  · exact List.sorted_insertionSort posLe _
  · unfold parse_acs_sections
    dsimp only
    rw [(List.perm_insertionSort posLe _).length_eq,
      foldl_append_length (fun p => (findIter p text.data).map (matchToSection text.data))]
    simp

/-- The Scenario D input text. -/
def textD : String := "AREA OF OPERATION II: Airspace\nTASK A. Preflight Prep"

/-- C8: on the Scenario D text the parser returns exactly two sections
with ascending offsets — the area-of-operation header with content
`Airspace` then the task header with content `Preflight Prep` — and the
standards table holds exactly one area entry `II / Airspace` and one task
entry `A / Preflight Prep`. -/
theorem C8_scenario_d :
    parse_acs_sections textD =
      [{ type := "AREA OF OPERATION II", content := "Airspace",
         position := 0, length := 30 },
       { type := "TASK A", content := "Preflight Prep",
         position := 31, length := 22 }] ∧
      (extract_acs_standards textD).areas_of_operation =
        [{ number := "II", title := "Airspace" }] ∧
      (extract_acs_standards textD).tasks =
        [{ code := "A", title := "Preflight Prep" }] := by
  refine ⟨by decide, by decide, by decide⟩

/-- C9: a document whose text extraction yields empty text produces a
record with empty text and absent sections/standards rather than a
failure, and batch processing continues around it: the batch output keeps
one record per input, with the empty record in place. -/
theorem C9_empty_extraction (method now pdf_path : String)
    (md : List (String × String))
    (pre post : List (String × String × List (String × String))) :
    process_document method now pdf_path ("", md) =
      { name := pathStem pdf_path, source_path := pdf_path, text_content := "",
        structured_content := none, sections := none, metadata := none,
        processing_method := some method, processed_at := some now } ∧
    process_all_documents method now (pre ++ (pdf_path, "", md) :: post) =
      process_all_documents method now pre ++
        process_document method now pdf_path ("", md) ::
          process_all_documents method now post ∧
    (process_all_documents method now (pre ++ (pdf_path, "", md) :: post)).length =
      pre.length + 1 + post.length := by
  refine ⟨rfl, ?_, ?_⟩
  · simp [process_all_documents]
  · simp [process_all_documents]
    omega

/-- C10 witness: instantiation with one new document whose body fetch
fails. -/
theorem C10_new_doc_fetch_failure_witness :
    (⟨"new", { name := "D", url := "u0" }, "t"⟩ : ChangeRecord) ∈
        (monitor (fun _ => "h") envC10 stEmpty).changes ∧
      ({ name := "D", url := "u0" } : ACSDocument) ∈
        (monitor (fun _ => "h") envC10 stEmpty).all_docs :=
  ⟨(C10_new_doc_fetch_failure (fun _ => "h") envC10 stEmpty
      { name := "D", url := "u0" } (by decide) rfl rfl).1,
   (C10_new_doc_fetch_failure (fun _ => "h") envC10 stEmpty
      { name := "D", url := "u0" } (by decide) rfl rfl).2.1⟩

end FAA
